import Mathlib

/-!
Shallow embedding of the Cloudflare Worker `src/index.js` of the
telnyx-text-to-email repository: a webhook handler that receives inbound
SMS/MMS events, resolves a per-destination route from a key-value store,
and either auto-replies via the telephony API or forwards the message as
an email.  External effects (KV reads, outbound fetches, timestamp
formatting, JSON parsing of stored route values) are modelled as explicit
function parameters; the handler's observable behaviour is its HTTP
response together with the ordered list of outbound calls it performs.
-/

namespace TelnyxWorker

/-- JS digit class `\d` = `[0-9]`, as used by the `replace(/\D/g, "")`
in `normalizePhoneNumber`. -/
def isDigitChar (c : Char) : Bool :=
  48 ≤ c.toNat && c.toNat ≤ 57

/-- The character set removed by JavaScript `String.prototype.trim`:
WhiteSpace (tab, VT, FF, space, NBSP, ZWNBSP, Unicode space separators)
and LineTerminator (LF, CR, LS, PS). -/
def jsWhitespace (c : Char) : Bool :=
  c.toNat = 9 || c.toNat = 10 || c.toNat = 11 || c.toNat = 12 || c.toNat = 13 ||
  c.toNat = 32 || c.toNat = 0xA0 || c.toNat = 0x1680 ||
  (0x2000 ≤ c.toNat && c.toNat ≤ 0x200A) ||
  c.toNat = 0x2028 || c.toNat = 0x2029 || c.toNat = 0x202F ||
  c.toNat = 0x205F || c.toNat = 0x3000 || c.toNat = 0xFEFF

/-- JavaScript `String.prototype.trim`, on the character list of a string. -/
def jsTrim (l : List Char) : List Char :=
  ((l.dropWhile jsWhitespace).reverse.dropWhile jsWhitespace).reverse

def E164_MIN_DIGITS : Nat := 8
def E164_MAX_DIGITS : Nat := 15

/-- `normalizePhoneNumber` from `src/index.js` lines 19-31.  The argument is
`none` when the JS value is not a string (the `typeof` guard). -/
def normalizePhoneNumber : Option String → Option String
  | none => none
  | some phoneNumber =>
    let trimmed := jsTrim phoneNumber.toList
    if List.isPrefixOf ['+'] trimmed then
      let digitsOnly := trimmed.filter isDigitChar
      if digitsOnly.length < E164_MIN_DIGITS || E164_MAX_DIGITS < digitsOnly.length then
        none
      else
        some (String.mk ('+' :: digitsOnly))
    else
      none

theorem jsWhitespace_not_digit {c : Char} (h : jsWhitespace c = true) :
    isDigitChar c = false := by
  simp only [jsWhitespace, Bool.or_eq_true, decide_eq_true_eq, Bool.and_eq_true] at h
  simp only [isDigitChar, Bool.and_eq_false_iff, decide_eq_false_iff_not, not_le]
  omega

theorem filter_digit_dropWhile_ws (l : List Char) :
    (l.dropWhile jsWhitespace).filter isDigitChar = l.filter isDigitChar := by
  induction l with
  | nil => rfl
  | cons c t ih =>
    by_cases hc : jsWhitespace c = true
    · rw [List.dropWhile_cons_of_pos hc, ih, List.filter_cons,
        jsWhitespace_not_digit hc]
      simp
    · rw [List.dropWhile_cons_of_neg hc]

theorem filter_digit_jsTrim (l : List Char) :
    (jsTrim l).filter isDigitChar = l.filter isDigitChar := by
  unfold jsTrim
  rw [List.filter_reverse, filter_digit_dropWhile_ws, List.filter_reverse,
    List.reverse_reverse, filter_digit_dropWhile_ws]

theorem dropWhile_ws_append_plus (a : List Char) :
    (a ++ ['+']).dropWhile jsWhitespace = a.dropWhile jsWhitespace ++ ['+'] := by
  rw [List.dropWhile_append]
  by_cases h : (a.dropWhile jsWhitespace).isEmpty
  · rw [if_pos h]
    rw [List.isEmpty_iff] at h
    rw [h]
    rfl
  · rw [if_neg h]

theorem jsTrim_plus_cons (t : List Char) :
    jsTrim ('+' :: t) = '+' :: (t.reverse.dropWhile jsWhitespace).reverse := by
  unfold jsTrim
  have h1 : ('+' :: t).dropWhile jsWhitespace = '+' :: t := by
    apply List.dropWhile_cons_of_neg
    decide
  rw [h1, List.reverse_cons, dropWhile_ws_append_plus, List.reverse_append,
    List.reverse_singleton, List.singleton_append]

/-! ## Data model of the webhook payload and the worker's environment -/

/-- The JS value of `messagePayload.to`: a bare string, an object with an
optional `phone_number` field, an array of such objects (each entry is its
`phone_number` field, `none` when the entry lacks one or is not a string),
or absent. -/
inductive ToVal where
  | missing
  | str (s : String)
  | obj (phone_number : Option String)
  | arr (items : List (Option String))
deriving DecidableEq

structure FromObj where
  phone_number : Option String
deriving DecidableEq

structure MediaItem where
  content_type : Option String
  url : Option String
deriving DecidableEq

structure MessagePayload where
  direction : Option String
  from_ : Option FromObj
  to_ : ToVal
  text : Option String
  media : Option (List MediaItem)
deriving DecidableEq

structure EventData where
  event_type : Option String
  occurred_at : Option String
  payload : Option MessagePayload
deriving DecidableEq

structure Payload where
  data : Option EventData
deriving DecidableEq

/-- A route configuration as produced by `JSON.parse` of a KV value.
Field access on a JS object yields `undefined` (= `none`) for missing
fields; a parsed non-object value behaves like a record with all fields
absent. -/
structure Route where
  mode : Option String
  reply_text : Option String
  email : Option String
deriving DecidableEq

/-- Worker bindings.  `NUMBER_TO_EMAIL` is the KV namespace (`get` returns
the stored string or `null`); `TELNYX_API_KEY` is `none` when the secret is
not configured. -/
structure Env where
  TELNYX_API_KEY : Option String
  FROM_EMAIL : String
  MAILGUN_DOMAIN : String
  MAILGUN_API_KEY : String
  NUMBER_TO_EMAIL : String → Option String

/-- Outcome of one outbound `fetch` of a media URL: HTTP success with the
response bytes, HTTP non-success status, or a thrown exception. -/
inductive FetchResult where
  | ok (bytes : List Nat)
  | notOk
  | throws
deriving DecidableEq

structure TelnyxCall where
  from_ : String
  to_ : String
  text : String
deriving DecidableEq

structure MailgunCall where
  from_ : String
  to_ : String
  subject : String
  html : String
  text : String
deriving DecidableEq

/-- One outbound HTTP call made by the worker, in program order. -/
inductive OutboundCall where
  | telnyx (c : TelnyxCall)
  | mailgun (c : MailgunCall)
  | mediaFetch (url : String)
deriving DecidableEq

structure Response where
  status : Nat
  body : String
deriving DecidableEq

def okResponse : Response := ⟨200, "OK"⟩

/-! ## Payload accessors (src/index.js lines 33-39, 156-165, 193) -/

/-- `getToPhone` (lines 33-39): the truthiness chain
`(Array.isArray(to) && to[0]?.phone_number) || to?.phone_number || to`,
collapsed to `none` whenever the chain's value is not a string, then
normalized. -/
def getToPhone (messagePayload : MessagePayload) : Option String :=
  let chain : Option String :=
    match messagePayload.to_ with
    | .arr items =>
      match items with
      | (some s) :: _ => if s = "" then none else some s
      | _ => none
    | .obj pn =>
      match pn with
      | some s => if s = "" then none else some s
      | none => none
    | .str s => some s
    | .missing => none
  normalizePhoneNumber chain

/-- `getFromPhone` (lines 156-161): display sender with `"(Unknown)"`
fallback for an absent, non-string or empty `from.phone_number`. -/
def getFromPhone (messagePayload : MessagePayload) : String :=
  match messagePayload.from_ with
  | some f =>
    match f.phone_number with
    | some s => if 0 < s.length then s else "(Unknown)"
    | none => "(Unknown)"
  | none => "(Unknown)"

/-- `getFromPhoneForReply` (lines 163-165): strict normalization of the
sender number. -/
def getFromPhoneForReply (messagePayload : MessagePayload) : Option String :=
  normalizePhoneNumber
    (match messagePayload.from_ with
     | some f => f.phone_number
     | none => none)

/-- `messagePayload.text || "(No text)"` (line 193). -/
def messageText (messagePayload : MessagePayload) : String :=
  match messagePayload.text with
  | some t => if t = "" then "(No text)" else t
  | none => "(No text)"

/-! ## Route resolution (src/index.js lines 41-51) -/

/-- `getRoute`: KV lookup under `route:<toPhone>` followed by `JSON.parse`.
`jsonParse raw = none` covers both a parse exception (caught, returns
`null`) and a parsed falsy value (rejected by the caller's `!route`
check, folded in here as the `!raw`-style guard cannot distinguish them
observably). -/
def getRoute (env : Env) (jsonParse : String → Option Route) (toPhone : String) :
    Option Route :=
  if toPhone = "" then none
  else
    match env.NUMBER_TO_EMAIL ("route:" ++ toPhone) with
    | none => none
    | some raw => if raw = "" then none else jsonParse raw

/-! ## Email construction and senders (src/index.js lines 53-127) -/

def buildEmailHtml (fromPhone friendlyDate text mediaHtml : String) : String :=
  "<h2>New SMS Received</h2>\n<p><strong>From:</strong> " ++ fromPhone ++
  "</p>\n<p><strong>Received at:</strong> " ++ friendlyDate ++
  "</p>\n<p><strong>Message:</strong> " ++ text ++ "</p>\n" ++ mediaHtml

def buildEmailText (fromPhone friendlyDate text : String) : String :=
  "New SMS Received\nFrom: " ++ fromPhone ++ "\nReceived at: " ++ friendlyDate ++
  "\nMessage: " ++ text

/-- `sendMailgunEmail` (lines 65-104), as the list of outbound calls it
performs.  The `!toEmail` guard skips the send for an empty recipient. -/
def sendMailgunEmail (env : Env) (toEmail fromPhone friendlyDate text mediaHtml : String) :
    List OutboundCall :=
  if toEmail = "" then []
  else
    [OutboundCall.mailgun
      ⟨"SMS Alerts <" ++ env.FROM_EMAIL ++ ">", toEmail,
       "New SMS from " ++ fromPhone,
       buildEmailHtml fromPhone friendlyDate text mediaHtml,
       buildEmailText fromPhone friendlyDate text⟩]

/-- `sendTelnyxReply` (lines 106-127): skips the call entirely when
`TELNYX_API_KEY` is missing or empty, otherwise posts
`{from: toPhone, to: fromPhone, text: replyText}`. -/
def sendTelnyxReply (env : Env) (toPhone fromPhone replyText : String) :
    List OutboundCall :=
  match env.TELNYX_API_KEY with
  | none => []
  | some k => if k = "" then [] else [OutboundCall.telnyx ⟨toPhone, fromPhone, replyText⟩]

/-! ## Media inlining (src/index.js lines 129-154) -/

def b64Alphabet : List Char :=
  "ABCDEFGHIJKLMNOPQRSTUVWXYZabcdefghijklmnopqrstuvwxyz0123456789+/".toList

def b64Char (n : Nat) : Char := b64Alphabet.getD n 'A'

/-- Standard base64 of a byte list, as computed by the
`btoa(Uint8Array.reduce(...))` idiom in `processMedia`. -/
def base64Encode : List Nat → List Char
  | [] => []
  | [a] => [b64Char (a / 4), b64Char (a % 4 * 16), '=', '=']
  | [a, b] => [b64Char (a / 4), b64Char (a % 4 * 16 + b / 16), b64Char (b % 16 * 4), '=']
  | a :: b :: c :: rest =>
    b64Char (a / 4) :: b64Char (a % 4 * 16 + b / 16) ::
    b64Char (b % 16 * 4 + c / 64) :: b64Char (c % 64) :: base64Encode rest

/-- The HTML fragment appended on a successful image fetch. -/
def mediaFragmentOk (contentType : String) (bytes : List Nat) : String :=
  "<p><strong>Image:</strong><br><img src=\"data:" ++ contentType ++
  ";base64," ++ String.mk (base64Encode bytes) ++
  "\" alt=\"MMS Image\" style=\"max-width: 300px;\"></p>"

/-- The plain-text fragment appended when the media fetch throws. -/
def mediaFragmentFail (url : String) : String :=
  "<p><strong>Image:</strong> Failed to load " ++ url ++ "</p>"

/-- One iteration of the `processMedia` loop: the HTML appended for this
item and the outbound fetch it performs (if any).  Only items whose
`content_type` starts with `image/` and whose `url` is truthy are fetched;
an HTTP-error response appends nothing, a thrown fetch appends the
failure fragment. -/
def processMediaItem (network : String → FetchResult) (item : MediaItem) :
    String × List OutboundCall :=
  match item.content_type with
  | none => ("", [])
  | some ct =>
    if List.isPrefixOf "image/".toList ct.toList then
      match item.url with
      | none => ("", [])
      | some u =>
        if u = "" then ("", [])
        else
          match network u with
          | .ok bytes => (mediaFragmentOk ct bytes, [OutboundCall.mediaFetch u])
          | .notOk => ("", [OutboundCall.mediaFetch u])
          | .throws => (mediaFragmentFail u, [OutboundCall.mediaFetch u])
    else ("", [])

def processMediaList (network : String → FetchResult) :
    List MediaItem → String × List OutboundCall
  | [] => ("", [])
  | item :: rest =>
    let r := processMediaItem network item
    let rs := processMediaList network rest
    (r.1 ++ rs.1, r.2 ++ rs.2)

/-- `processMedia` (lines 129-154): accumulated media HTML and the ordered
outbound fetches, over `messagePayload.media || []`. -/
def processMedia (network : String → FetchResult) (messagePayload : MessagePayload) :
    String × List OutboundCall :=
  processMediaList network
    (match messagePayload.media with
     | some m => m
     | none => [])

/-! ## The request handler (src/index.js lines 167-246) -/

/-- The worker's `fetch` handler.  `jsonParse` stands for the platform's
`JSON.parse` on stored route values, `network` for outbound media fetches,
`formatDate` for `new Date(occurred_at).toLocaleString("en-US", ...)`.
`body = none` models a request body that fails JSON parsing.  The result
is the HTTP response together with the ordered outbound calls made. -/
def fetchHandler (env : Env) (jsonParse : String → Option Route)
    (network : String → FetchResult) (formatDate : Option String → String)
    (method : String) (body : Option Payload) : Response × List OutboundCall :=
  if method ≠ "POST" then (⟨405, "Method not allowed"⟩, [])
  else
    match body with
    | none => (⟨500, "Internal Server Error"⟩, [])
    | some payload =>
      match payload.data with
      | none => (⟨500, "Internal Server Error"⟩, [])
      | some data =>
        if data.event_type ≠ some "message.received" then (okResponse, [])
        else
          match data.payload with
          | none => (⟨500, "Internal Server Error"⟩, [])
          | some messagePayload =>
            if messagePayload.direction ≠ some "inbound" then (okResponse, [])
            else
              let fromPhone := getFromPhone messagePayload
              let fromPhoneForReply := getFromPhoneForReply messagePayload
              let text := messageText messagePayload
              match getToPhone messagePayload with
              | none => (okResponse, [])
              | some toPhone =>
                match getRoute env jsonParse toPhone with
                | none => (okResponse, [])
                | some route =>
                  if route.mode = some "auto_reply" then
                    match route.reply_text with
                    | none => (okResponse, [])
                    | some replyText =>
                      if replyText = "" then (okResponse, [])
                      else
                        match fromPhoneForReply with
                        | none => (okResponse, [])
                        | some fpr =>
                          (okResponse, sendTelnyxReply env toPhone fpr replyText)
                  else if route.mode = some "forward_email" then
                    match route.email with
                    | none => (okResponse, [])
                    | some em =>
                      if em = "" then (okResponse, [])
                      else
                        let friendlyDate := formatDate data.occurred_at
                        let pm := processMedia network messagePayload
                        (okResponse,
                          pm.2 ++ sendMailgunEmail env em fromPhone friendlyDate text pm.1)
                  else (okResponse, [])

/-! ## Claim theorems -/

/-- C4 counterexample: the claim "for every string `s` that does not start
with `'+'`, `normalizePhoneNumber(s)` returns an absent value" is false at
the input `" +12345678"`: it starts with a space, not `'+'`, yet
normalization succeeds because the code trims before the prefix check. -/
theorem C4_counterexample :
    (" +12345678").toList.head? ≠ some '+' ∧
    normalizePhoneNumber (some " +12345678") = some "+12345678" := by
  constructor
  · decide
  · decide

/-- C4 (amended): for every string whose JS-trimmed form does not start
with `'+'`, `normalizePhoneNumber` returns an absent value. -/
theorem C4_trimmed_no_plus (s : String)
    (h : List.isPrefixOf ['+'] (jsTrim s.toList) = false) :
    normalizePhoneNumber (some s) = none := by
  simp only [normalizePhoneNumber, h, Bool.false_eq_true, if_false]

/-- C4 witness: the amended claim at the concrete input `"abc"`. -/
theorem C4_trimmed_no_plus_witness :
    List.isPrefixOf ['+'] (jsTrim "abc".toList) = false ∧
    normalizePhoneNumber (some "abc") = none :=
  ⟨by decide, C4_trimmed_no_plus "abc" (by decide)⟩

/-- C5: for every string starting with `'+'`, if its digit count lies in
[8,15] then `normalizePhoneNumber` returns `'+'` followed by exactly those
digits in order (regardless of interspersed non-digit characters), and if
the digit count lies outside [8,15] the result is absent. -/
theorem C5_normalize_digits (s : String) (t : List Char)
    (hs : s.toList = '+' :: t) :
    (8 ≤ (s.toList.filter isDigitChar).length →
      (s.toList.filter isDigitChar).length ≤ 15 →
      normalizePhoneNumber (some s) =
        some (String.mk ('+' :: s.toList.filter isDigitChar))) ∧
    ((s.toList.filter isDigitChar).length < 8 ∨
        15 < (s.toList.filter isDigitChar).length →
      normalizePhoneNumber (some s) = none) := by
  have hpre : List.isPrefixOf ['+'] (jsTrim s.toList) = true := by
    rw [hs, jsTrim_plus_cons]
    simp [List.isPrefixOf]
  have hfilt : (jsTrim s.toList).filter isDigitChar = s.toList.filter isDigitChar :=
    filter_digit_jsTrim _
  constructor
  · intro h8 h15
    simp only [normalizePhoneNumber, hpre, if_true, hfilt]
    rw [if_neg]
    simp only [E164_MIN_DIGITS, E164_MAX_DIGITS, Bool.or_eq_true, decide_eq_true_eq,
      not_or, not_lt]
    omega
  · intro hout
    simp only [normalizePhoneNumber, hpre, if_true, hfilt]
    rw [if_pos]
    simp only [E164_MIN_DIGITS, E164_MAX_DIGITS, Bool.or_eq_true, decide_eq_true_eq]
    omega

/-- C5 witness: `"+1 (555) 123-4567"` (11 digits) normalizes to
`"+15551234567"`. -/
theorem C5_normalize_digits_witness :
    normalizePhoneNumber (some "+1 (555) 123-4567") =
      some (String.mk ('+' :: "+1 (555) 123-4567".toList.filter isDigitChar)) ∧
    String.mk ('+' :: "+1 (555) 123-4567".toList.filter isDigitChar) = "+15551234567" :=
  ⟨(C5_normalize_digits "+1 (555) 123-4567" "1 (555) 123-4567".toList
      (by decide)).1 (by decide) (by decide),
   by decide⟩

/-! ## Helper notions for the handler claims -/

/-- `needle` occurs as a contiguous substring of `hay`. -/
def containsStr (hay needle : String) : Prop :=
  ∃ p s : List Char, hay.data = p ++ needle.data ++ s

def isEmailCall : OutboundCall → Bool
  | .mailgun _ => true
  | _ => false

theorem processMediaItem_filter_email (network : String → FetchResult)
    (item : MediaItem) :
    (processMediaItem network item).2.filter isEmailCall = [] := by
  unfold processMediaItem
  rcases item with ⟨ct, u⟩
  cases ct with
  | none => rfl
  | some c =>
    simp only
    split
    · cases u with
      | none => rfl
      | some v =>
        simp only
        split
        · rfl
        · cases network v <;> rfl
    · rfl

theorem processMediaList_filter_email (network : String → FetchResult)
    (l : List MediaItem) :
    (processMediaList network l).2.filter isEmailCall = [] := by
  induction l with
  | nil => rfl
  | cons item rest ih =>
    simp only [processMediaList, List.filter_append,
      processMediaItem_filter_email, ih, List.append_nil]

theorem processMediaList_append (network : String → FetchResult)
    (a b : List MediaItem) :
    processMediaList network (a ++ b) =
      ((processMediaList network a).1 ++ (processMediaList network b).1,
       (processMediaList network a).2 ++ (processMediaList network b).2) := by
  induction a with
  | nil => simp [processMediaList]
  | cons item rest ih =>
    have hcons : (item :: rest) ++ b = item :: (rest ++ b) := rfl
    rw [hcons]
    simp only [processMediaList]
    rw [ih]
    simp [List.append_assoc, String.append_assoc]

/-- The forward_email dispatch path of the handler, shared shape: with a
resolved `forward_email` route carrying a non-empty email, the handler
responds 200 and performs the media fetches followed by exactly the one
mailgun call built from the display sender, formatted timestamp, message
text and inlined media HTML. -/
theorem forwardEmailDispatch (env : Env) (jsonParse : String → Option Route)
    (network : String → FetchResult) (formatDate : Option String → String)
    (payload : Payload) (data : EventData) (mp : MessagePayload)
    (tp : String) (route : Route) (em : String)
    (hd : payload.data = some data)
    (he : data.event_type = some "message.received")
    (hp : data.payload = some mp)
    (hdir : mp.direction = some "inbound")
    (hto : getToPhone mp = some tp)
    (hroute : getRoute env jsonParse tp = some route)
    (hmode : route.mode = some "forward_email")
    (hem : route.email = some em)
    (hemne : em ≠ "") :
    fetchHandler env jsonParse network formatDate "POST" (some payload) =
      (okResponse,
        (processMedia network mp).2 ++
          [OutboundCall.mailgun
            ⟨"SMS Alerts <" ++ env.FROM_EMAIL ++ ">", em,
             "New SMS from " ++ getFromPhone mp,
             buildEmailHtml (getFromPhone mp) (formatDate data.occurred_at)
               (messageText mp) (processMedia network mp).1,
             buildEmailText (getFromPhone mp) (formatDate data.occurred_at)
               (messageText mp)⟩]) := by
  simp [fetchHandler, hd, he, hp, hdir, hto, hroute, hmode, hem, hemne,
    sendMailgunEmail]

/-- C6: for every POST request with a valid JSON body whose event has an
event_type other than "message.received" or a direction other than
"inbound", the handler responds 200 and makes no outbound HTTP call. -/
theorem C6_filtered_event (env : Env) (jsonParse : String → Option Route)
    (network : String → FetchResult) (formatDate : Option String → String)
    (payload : Payload) (data : EventData)
    (hd : payload.data = some data)
    (hfilter : data.event_type ≠ some "message.received" ∨
      ∃ mp, data.payload = some mp ∧ mp.direction ≠ some "inbound") :
    fetchHandler env jsonParse network formatDate "POST" (some payload) =
      (okResponse, []) := by
  rcases hfilter with h | ⟨mp, hmp, hdir⟩
  · simp [fetchHandler, hd, h]
  · by_cases he : data.event_type = some "message.received"
    · simp [fetchHandler, hd, he, hmp, hdir]
    · simp [fetchHandler, hd, he]

/-- C6 witness: a `message.delivered` event is acknowledged with 200 and
no outbound call. -/
theorem C6_filtered_event_witness :
    fetchHandler ⟨none, "", "", "", fun _ => none⟩ (fun _ => none)
        (fun _ => FetchResult.notOk) (fun _ => "")
        "POST" (some ⟨some ⟨some "message.delivered", none, none⟩⟩) =
      (okResponse, []) :=
  C6_filtered_event _ _ _ _ _ ⟨some "message.delivered", none, none⟩ rfl
    (Or.inl (by decide))

/-- C7: for an inbound message.received event with a valid canonical
destination, if the KV store has no entry under `route:<destination>` or
the stored value fails JSON parsing, then `getRoute` returns no route and
the handler responds 200 with no outbound call. -/
theorem C7_no_route (env : Env) (jsonParse : String → Option Route)
    (network : String → FetchResult) (formatDate : Option String → String)
    (payload : Payload) (data : EventData) (mp : MessagePayload) (tp : String)
    (hd : payload.data = some data)
    (he : data.event_type = some "message.received")
    (hp : data.payload = some mp)
    (hdir : mp.direction = some "inbound")
    (hto : getToPhone mp = some tp)
    (hkv : env.NUMBER_TO_EMAIL ("route:" ++ tp) = none ∨
      ∃ raw, env.NUMBER_TO_EMAIL ("route:" ++ tp) = some raw ∧ jsonParse raw = none) :
    getRoute env jsonParse tp = none ∧
    fetchHandler env jsonParse network formatDate "POST" (some payload) =
      (okResponse, []) := by
  have hroute : getRoute env jsonParse tp = none := by
    unfold getRoute
    by_cases htp : tp = ""
    · simp [htp]
    · rcases hkv with h | ⟨raw, hraw, hparse⟩
      · simp [htp, h]
      · by_cases hraw0 : raw = ""
        · simp [htp, hraw, hraw0]
        · simp [htp, hraw, hraw0, hparse]
  refine ⟨hroute, ?_⟩
  simp [fetchHandler, hd, he, hp, hdir, hto, hroute]

/-- C7 witness: an inbound message to `+12345678901` with an empty KV
store yields no route, 200, and no outbound call. -/
theorem C7_no_route_witness :
    getRoute ⟨none, "", "", "", fun _ => none⟩ (fun _ => none) "+12345678901" = none ∧
    fetchHandler ⟨none, "", "", "", fun _ => none⟩ (fun _ => none)
        (fun _ => FetchResult.notOk) (fun _ => "")
        "POST"
        (some ⟨some ⟨some "message.received", some "2024-01-01T00:00:00Z",
          some ⟨some "inbound", some ⟨some "+15551234567"⟩,
            ToVal.str "+12345678901", some "hi", none⟩⟩⟩) =
      (okResponse, []) :=
  C7_no_route _ _ _ _ _ ⟨some "message.received", some "2024-01-01T00:00:00Z",
      some ⟨some "inbound", some ⟨some "+15551234567"⟩,
        ToVal.str "+12345678901", some "hi", none⟩⟩
    ⟨some "inbound", some ⟨some "+15551234567"⟩,
      ToVal.str "+12345678901", some "hi", none⟩
    "+12345678901" rfl rfl rfl rfl (by decide) (Or.inl rfl)

/-- C1: for an inbound message.received event resolving to an
`auto_reply` route with `reply_text = "Thanks!"`, with a strictly
normalized sender number and the telephony API key configured, the
handler makes exactly one call to the reply endpoint with JSON body
`{from: <canonical destination>, to: <canonical sender>, text: "Thanks!"}`;
if `reply_text` is missing/empty or the sender fails normalization, the
handler responds 200 and sends no reply. -/
theorem C1_auto_reply (env : Env) (jsonParse : String → Option Route)
    (network : String → FetchResult) (formatDate : Option String → String)
    (payload : Payload) (data : EventData) (mp : MessagePayload)
    (tp : String) (route : Route) (fpr key : String)
    (hd : payload.data = some data)
    (he : data.event_type = some "message.received")
    (hp : data.payload = some mp)
    (hdir : mp.direction = some "inbound")
    (hto : getToPhone mp = some tp)
    (hroute : getRoute env jsonParse tp = some route)
    (hmode : route.mode = some "auto_reply") :
    ((route.reply_text = some "Thanks!" ∧ getFromPhoneForReply mp = some fpr ∧
        env.TELNYX_API_KEY = some key ∧ key ≠ "") →
      fetchHandler env jsonParse network formatDate "POST" (some payload) =
        (okResponse, [OutboundCall.telnyx ⟨tp, fpr, "Thanks!"⟩])) ∧
    ((route.reply_text = none ∨ route.reply_text = some "" ∨
        getFromPhoneForReply mp = none) →
      fetchHandler env jsonParse network formatDate "POST" (some payload) =
        (okResponse, [])) := by
  constructor
  · rintro ⟨hrt, hfpr, hkey, hkeyne⟩
    simp [fetchHandler, hd, he, hp, hdir, hto, hroute, hmode, hrt, hfpr,
      sendTelnyxReply, hkey, hkeyne]
  · rintro (hrt | hrt | hfpr)
    · simp [fetchHandler, hd, he, hp, hdir, hto, hroute, hmode, hrt]
    · simp [fetchHandler, hd, he, hp, hdir, hto, hroute, hmode, hrt]
    · rcases hrtv : route.reply_text with _ | rt
      · simp [fetchHandler, hd, he, hp, hdir, hto, hroute, hmode, hrtv]
      · by_cases hrt0 : rt = ""
        · simp [fetchHandler, hd, he, hp, hdir, hto, hroute, hmode, hrtv, hrt0]
        · simp [fetchHandler, hd, he, hp, hdir, hto, hroute, hmode, hrtv, hrt0, hfpr]

/-- C1 witness: a concrete inbound message to `+12345678901` from
`+15551234567` with an `auto_reply` route sends exactly the one reply
`{from: "+12345678901", to: "+15551234567", text: "Thanks!"}`. -/
theorem C1_auto_reply_witness :
    fetchHandler
        ⟨some "tk", "noreply@example.com", "mg.example.com", "mk",
          fun k => if k = "route:+12345678901" then some "cfg" else none⟩
        (fun r => if r = "cfg" then some ⟨some "auto_reply", some "Thanks!", none⟩ else none)
        (fun _ => FetchResult.notOk) (fun _ => "Jan 1, 2024")
        "POST"
        (some ⟨some ⟨some "message.received", some "2024-01-01T00:00:00Z",
          some ⟨some "inbound", some ⟨some "+1 (555) 123-4567"⟩,
            ToVal.str "+12345678901", some "hi", none⟩⟩⟩) =
      (okResponse, [OutboundCall.telnyx ⟨"+12345678901", "+15551234567", "Thanks!"⟩]) :=
  (C1_auto_reply
      ⟨some "tk", "noreply@example.com", "mg.example.com", "mk",
        fun k => if k = "route:+12345678901" then some "cfg" else none⟩
      (fun r => if r = "cfg" then some ⟨some "auto_reply", some "Thanks!", none⟩ else none)
      (fun _ => FetchResult.notOk) (fun _ => "Jan 1, 2024")
      _ ⟨some "message.received", some "2024-01-01T00:00:00Z",
        some ⟨some "inbound", some ⟨some "+1 (555) 123-4567"⟩,
          ToVal.str "+12345678901", some "hi", none⟩⟩
      ⟨some "inbound", some ⟨some "+1 (555) 123-4567"⟩,
        ToVal.str "+12345678901", some "hi", none⟩
      "+12345678901" ⟨some "auto_reply", some "Thanks!", none⟩ "+15551234567" "tk"
      rfl rfl rfl rfl (by decide) (by decide) rfl).1
    ⟨rfl, by decide, rfl, by decide⟩

/-- C9: for an `auto_reply` route with non-empty reply_text and a validly
normalized sender, if `TELNYX_API_KEY` is absent or empty the reply sender
makes no outbound HTTP call at all and the handler still responds 200. -/
theorem C9_missing_api_key (env : Env) (jsonParse : String → Option Route)
    (network : String → FetchResult) (formatDate : Option String → String)
    (payload : Payload) (data : EventData) (mp : MessagePayload)
    (tp : String) (route : Route) (rt fpr : String)
    (hd : payload.data = some data)
    (he : data.event_type = some "message.received")
    (hp : data.payload = some mp)
    (hdir : mp.direction = some "inbound")
    (hto : getToPhone mp = some tp)
    (hroute : getRoute env jsonParse tp = some route)
    (hmode : route.mode = some "auto_reply")
    (hrt : route.reply_text = some rt)
    (hrtne : rt ≠ "")
    (hfpr : getFromPhoneForReply mp = some fpr)
    (hkey : env.TELNYX_API_KEY = none ∨ env.TELNYX_API_KEY = some "") :
    fetchHandler env jsonParse network formatDate "POST" (some payload) =
      (okResponse, []) := by
  rcases hkey with hkey | hkey <;>
    simp [fetchHandler, hd, he, hp, hdir, hto, hroute, hmode, hrt, hrtne, hfpr,
      sendTelnyxReply, hkey]

/-- C9 witness: the C1 scenario with `TELNYX_API_KEY` unset responds 200
with zero outbound calls. -/
theorem C9_missing_api_key_witness :
    fetchHandler
        ⟨none, "noreply@example.com", "mg.example.com", "mk",
          fun k => if k = "route:+12345678901" then some "cfg" else none⟩
        (fun r => if r = "cfg" then some ⟨some "auto_reply", some "Thanks!", none⟩ else none)
        (fun _ => FetchResult.notOk) (fun _ => "Jan 1, 2024")
        "POST"
        (some ⟨some ⟨some "message.received", some "2024-01-01T00:00:00Z",
          some ⟨some "inbound", some ⟨some "+1 (555) 123-4567"⟩,
            ToVal.str "+12345678901", some "hi", none⟩⟩⟩) =
      (okResponse, []) :=
  C9_missing_api_key
    ⟨none, "noreply@example.com", "mg.example.com", "mk",
      fun k => if k = "route:+12345678901" then some "cfg" else none⟩
    (fun r => if r = "cfg" then some ⟨some "auto_reply", some "Thanks!", none⟩ else none)
    (fun _ => FetchResult.notOk) (fun _ => "Jan 1, 2024")
    _ ⟨some "message.received", some "2024-01-01T00:00:00Z",
      some ⟨some "inbound", some ⟨some "+1 (555) 123-4567"⟩,
        ToVal.str "+12345678901", some "hi", none⟩⟩
    ⟨some "inbound", some ⟨some "+1 (555) 123-4567"⟩,
      ToVal.str "+12345678901", some "hi", none⟩
    "+12345678901" ⟨some "auto_reply", some "Thanks!", none⟩ "Thanks!" "+15551234567"
    rfl rfl rfl rfl (by decide) (by decide) rfl rfl (by decide) (by decide)
    (Or.inl rfl)

theorem containsStr_buildEmailHtml_text (f d t m : String) :
    containsStr (buildEmailHtml f d t m) t := by
  refine ⟨("<h2>New SMS Received</h2>\n<p><strong>From:</strong> " ++ f ++
    "</p>\n<p><strong>Received at:</strong> " ++ d ++
    "</p>\n<p><strong>Message:</strong> ").data, ("</p>\n" ++ m).data, ?_⟩
  simp [buildEmailHtml, List.append_assoc]

theorem containsStr_buildEmailHtml_date (f d t m : String) :
    containsStr (buildEmailHtml f d t m) d := by
  refine ⟨("<h2>New SMS Received</h2>\n<p><strong>From:</strong> " ++ f ++
    "</p>\n<p><strong>Received at:</strong> ").data,
    ("</p>\n<p><strong>Message:</strong> " ++ t ++ "</p>\n" ++ m).data, ?_⟩
  simp [buildEmailHtml, List.append_assoc]

theorem containsStr_buildEmailText_text (f d t : String) :
    containsStr (buildEmailText f d t) t := by
  refine ⟨("New SMS Received\nFrom: " ++ f ++ "\nReceived at: " ++ d ++
    "\nMessage: ").data, [], ?_⟩
  simp [buildEmailText, List.append_assoc]

theorem containsStr_buildEmailText_date (f d t : String) :
    containsStr (buildEmailText f d t) d := by
  refine ⟨("New SMS Received\nFrom: " ++ f ++ "\nReceived at: ").data,
    ("\nMessage: " ++ t).data, ?_⟩
  simp [buildEmailText, List.append_assoc]

/-- C2: for an inbound message.received event resolving to a
`forward_email` route with non-empty email, the handler makes exactly one
call to the email endpoint, that email's `to` field equals the route's
email, and both the HTML and the plain-text bodies contain the message
text and the formatted timestamp; if the route's email is missing or
empty, the handler responds 200 and sends no email. -/
theorem C2_forward_email (env : Env) (jsonParse : String → Option Route)
    (network : String → FetchResult) (formatDate : Option String → String)
    (payload : Payload) (data : EventData) (mp : MessagePayload)
    (tp : String) (route : Route) (em : String)
    (hd : payload.data = some data)
    (he : data.event_type = some "message.received")
    (hp : data.payload = some mp)
    (hdir : mp.direction = some "inbound")
    (hto : getToPhone mp = some tp)
    (hroute : getRoute env jsonParse tp = some route)
    (hmode : route.mode = some "forward_email") :
    ((route.email = some em ∧ em ≠ "") →
      fetchHandler env jsonParse network formatDate "POST" (some payload) =
        (okResponse,
          (processMedia network mp).2 ++
            [OutboundCall.mailgun
              ⟨"SMS Alerts <" ++ env.FROM_EMAIL ++ ">", em,
               "New SMS from " ++ getFromPhone mp,
               buildEmailHtml (getFromPhone mp) (formatDate data.occurred_at)
                 (messageText mp) (processMedia network mp).1,
               buildEmailText (getFromPhone mp) (formatDate data.occurred_at)
                 (messageText mp)⟩]) ∧
        (processMedia network mp).2.filter isEmailCall = [] ∧
        containsStr (buildEmailHtml (getFromPhone mp) (formatDate data.occurred_at)
          (messageText mp) (processMedia network mp).1) (messageText mp) ∧
        containsStr (buildEmailHtml (getFromPhone mp) (formatDate data.occurred_at)
          (messageText mp) (processMedia network mp).1) (formatDate data.occurred_at) ∧
        containsStr (buildEmailText (getFromPhone mp) (formatDate data.occurred_at)
          (messageText mp)) (messageText mp) ∧
        containsStr (buildEmailText (getFromPhone mp) (formatDate data.occurred_at)
          (messageText mp)) (formatDate data.occurred_at)) ∧
    ((route.email = none ∨ route.email = some "") →
      fetchHandler env jsonParse network formatDate "POST" (some payload) =
        (okResponse, [])) := by
  constructor
  · rintro ⟨hem, hemne⟩
    refine ⟨forwardEmailDispatch env jsonParse network formatDate payload data mp
        tp route em hd he hp hdir hto hroute hmode hem hemne,
      processMediaList_filter_email network _,
      containsStr_buildEmailHtml_text _ _ _ _,
      containsStr_buildEmailHtml_date _ _ _ _,
      containsStr_buildEmailText_text _ _ _,
      containsStr_buildEmailText_date _ _ _⟩
  · rintro (hem | hem) <;>
      simp [fetchHandler, hd, he, hp, hdir, hto, hroute, hmode, hem]

/-- C2 witness: a concrete inbound message routed to
`{mode:"forward_email", email:"a@b.com"}` produces exactly one email call
addressed to `"a@b.com"` whose bodies contain the message text and the
formatted timestamp. -/
theorem C2_forward_email_witness :
    fetchHandler
        ⟨none, "noreply@example.com", "mg.example.com", "mk",
          fun k => if k = "route:+12345678901" then some "cfg" else none⟩
        (fun r => if r = "cfg" then some ⟨some "forward_email", none, some "a@b.com"⟩ else none)
        (fun _ => FetchResult.notOk) (fun _ => "Jan 1, 2024, 6:00 PM CST")
        "POST"
        (some ⟨some ⟨some "message.received", some "2024-01-01T00:00:00Z",
          some ⟨some "inbound", some ⟨some "+15551234567"⟩,
            ToVal.str "+12345678901", some "hello", none⟩⟩⟩) =
      (okResponse,
        (processMedia (fun _ => FetchResult.notOk)
          ⟨some "inbound", some ⟨some "+15551234567"⟩,
            ToVal.str "+12345678901", some "hello", none⟩).2 ++
          [OutboundCall.mailgun
            ⟨"SMS Alerts <" ++ "noreply@example.com" ++ ">", "a@b.com",
             "New SMS from " ++ getFromPhone
               ⟨some "inbound", some ⟨some "+15551234567"⟩,
                 ToVal.str "+12345678901", some "hello", none⟩,
             buildEmailHtml
               (getFromPhone ⟨some "inbound", some ⟨some "+15551234567"⟩,
                 ToVal.str "+12345678901", some "hello", none⟩)
               "Jan 1, 2024, 6:00 PM CST"
               (messageText ⟨some "inbound", some ⟨some "+15551234567"⟩,
                 ToVal.str "+12345678901", some "hello", none⟩)
               (processMedia (fun _ => FetchResult.notOk)
                 ⟨some "inbound", some ⟨some "+15551234567"⟩,
                   ToVal.str "+12345678901", some "hello", none⟩).1,
             buildEmailText
               (getFromPhone ⟨some "inbound", some ⟨some "+15551234567"⟩,
                 ToVal.str "+12345678901", some "hello", none⟩)
               "Jan 1, 2024, 6:00 PM CST"
               (messageText ⟨some "inbound", some ⟨some "+15551234567"⟩,
                 ToVal.str "+12345678901", some "hello", none⟩)⟩]) ∧
    (processMedia (fun _ => FetchResult.notOk)
      ⟨some "inbound", some ⟨some "+15551234567"⟩,
        ToVal.str "+12345678901", some "hello", none⟩).2.filter isEmailCall = [] ∧
    containsStr
      (buildEmailHtml
        (getFromPhone ⟨some "inbound", some ⟨some "+15551234567"⟩,
          ToVal.str "+12345678901", some "hello", none⟩)
        "Jan 1, 2024, 6:00 PM CST"
        (messageText ⟨some "inbound", some ⟨some "+15551234567"⟩,
          ToVal.str "+12345678901", some "hello", none⟩)
        (processMedia (fun _ => FetchResult.notOk)
          ⟨some "inbound", some ⟨some "+15551234567"⟩,
            ToVal.str "+12345678901", some "hello", none⟩).1)
      (messageText ⟨some "inbound", some ⟨some "+15551234567"⟩,
        ToVal.str "+12345678901", some "hello", none⟩) ∧
    containsStr
      (buildEmailHtml
        (getFromPhone ⟨some "inbound", some ⟨some "+15551234567"⟩,
          ToVal.str "+12345678901", some "hello", none⟩)
        "Jan 1, 2024, 6:00 PM CST"
        (messageText ⟨some "inbound", some ⟨some "+15551234567"⟩,
          ToVal.str "+12345678901", some "hello", none⟩)
        (processMedia (fun _ => FetchResult.notOk)
          ⟨some "inbound", some ⟨some "+15551234567"⟩,
            ToVal.str "+12345678901", some "hello", none⟩).1)
      "Jan 1, 2024, 6:00 PM CST" ∧
    containsStr
      (buildEmailText
        (getFromPhone ⟨some "inbound", some ⟨some "+15551234567"⟩,
          ToVal.str "+12345678901", some "hello", none⟩)
        "Jan 1, 2024, 6:00 PM CST"
        (messageText ⟨some "inbound", some ⟨some "+15551234567"⟩,
          ToVal.str "+12345678901", some "hello", none⟩))
      (messageText ⟨some "inbound", some ⟨some "+15551234567"⟩,
        ToVal.str "+12345678901", some "hello", none⟩) ∧
    containsStr
      (buildEmailText
        (getFromPhone ⟨some "inbound", some ⟨some "+15551234567"⟩,
          ToVal.str "+12345678901", some "hello", none⟩)
        "Jan 1, 2024, 6:00 PM CST"
        (messageText ⟨some "inbound", some ⟨some "+15551234567"⟩,
          ToVal.str "+12345678901", some "hello", none⟩))
      "Jan 1, 2024, 6:00 PM CST" :=
  (C2_forward_email
      ⟨none, "noreply@example.com", "mg.example.com", "mk",
        fun k => if k = "route:+12345678901" then some "cfg" else none⟩
      (fun r => if r = "cfg" then some ⟨some "forward_email", none, some "a@b.com"⟩ else none)
      (fun _ => FetchResult.notOk) (fun _ => "Jan 1, 2024, 6:00 PM CST")
      _ ⟨some "message.received", some "2024-01-01T00:00:00Z",
        some ⟨some "inbound", some ⟨some "+15551234567"⟩,
          ToVal.str "+12345678901", some "hello", none⟩⟩
      ⟨some "inbound", some ⟨some "+15551234567"⟩,
        ToVal.str "+12345678901", some "hello", none⟩
      "+12345678901" ⟨some "forward_email", none, some "a@b.com"⟩ "a@b.com"
      rfl rfl rfl rfl (by decide) (by decide) rfl).1
    ⟨rfl, by decide⟩

/-- A network in which every fetch returns an HTTP error status. -/
def cexNetworkNotOk : String → FetchResult := fun _ => FetchResult.notOk

/-- C3 counterexample: for an `image/png` attachment whose fetch returns a
non-success HTTP status, the media inliner appends nothing at all — in
particular, no "failed to load" fragment (the failure fragment is only
appended when the fetch throws). -/
theorem C3_counterexample :
    processMediaList cexNetworkNotOk
        [⟨some "image/png", some "http://example.com/a.png"⟩] =
      ("", [OutboundCall.mediaFetch "http://example.com/a.png"]) ∧
    ¬ containsStr "" ("Failed to load http://example.com/a.png") := by
  constructor
  · decide
  · rintro ⟨p, s, h⟩
    have h2 : p ++ ("Failed to load http://example.com/a.png".data ++ s) = [] := by
      rw [← List.append_assoc, ← h]
    rw [List.append_eq_nil] at h2
    rw [List.append_eq_nil] at h2
    exact absurd h2.2.1 (by decide)

/-- C3 (amended): for an image attachment whose URL is fetched, a thrown
fetch appends the plain-text "failed to load" fragment while a
non-success HTTP status appends nothing (no data-URI and no failure
fragment); in both cases the inliner never raises, the media fetch still
happens, processing continues with all subsequent attachments, and the
email is still sent. -/
theorem C3_media_failure (env : Env) (jsonParse : String → Option Route)
    (network : String → FetchResult) (formatDate : Option String → String)
    (payload : Payload) (data : EventData) (mp : MessagePayload)
    (tp : String) (route : Route) (em ct u : String)
    (pre post : List MediaItem)
    (hct : List.isPrefixOf "image/".toList ct.toList = true)
    (hu : u ≠ "")
    (hd : payload.data = some data)
    (he : data.event_type = some "message.received")
    (hp : data.payload = some mp)
    (hdir : mp.direction = some "inbound")
    (hto : getToPhone mp = some tp)
    (hroute : getRoute env jsonParse tp = some route)
    (hmode : route.mode = some "forward_email")
    (hem : route.email = some em)
    (hemne : em ≠ "")
    (hmedia : mp.media = some (pre ++ ⟨some ct, some u⟩ :: post)) :
    (network u = FetchResult.throws →
      (processMedia network mp).1 =
        (processMediaList network pre).1 ++ mediaFragmentFail u ++
          (processMediaList network post).1) ∧
    (network u = FetchResult.notOk →
      (processMedia network mp).1 =
        (processMediaList network pre).1 ++ (processMediaList network post).1) ∧
    (processMedia network mp).2 =
      (processMediaList network pre).2 ++ OutboundCall.mediaFetch u ::
        (processMediaList network post).2 ∧
    fetchHandler env jsonParse network formatDate "POST" (some payload) =
      (okResponse,
        (processMedia network mp).2 ++
          [OutboundCall.mailgun
            ⟨"SMS Alerts <" ++ env.FROM_EMAIL ++ ">", em,
             "New SMS from " ++ getFromPhone mp,
             buildEmailHtml (getFromPhone mp) (formatDate data.occurred_at)
               (messageText mp) (processMedia network mp).1,
             buildEmailText (getFromPhone mp) (formatDate data.occurred_at)
               (messageText mp)⟩]) := by
  have hpm : processMedia network mp =
      processMediaList network (pre ++ ⟨some ct, some u⟩ :: post) := by
    simp [processMedia, hmedia]
  have hsplit : processMediaList network (pre ++ ⟨some ct, some u⟩ :: post) =
      ((processMediaList network pre).1 ++
        ((processMediaItem network ⟨some ct, some u⟩).1 ++
          (processMediaList network post).1),
       (processMediaList network pre).2 ++
        ((processMediaItem network ⟨some ct, some u⟩).2 ++
          (processMediaList network post).2)) := by
    rw [processMediaList_append]
    simp [processMediaList]
  have hfetchcalls : (processMediaItem network ⟨some ct, some u⟩).2 =
      [OutboundCall.mediaFetch u] := by
    unfold processMediaItem
    simp only [hct, if_true, hu, if_false, if_neg hu]
    cases network u <;> rfl
  refine ⟨?_, ?_, ?_, ?_⟩
  · intro hthrows
    have hitem : (processMediaItem network ⟨some ct, some u⟩).1 = mediaFragmentFail u := by
      unfold processMediaItem
      simp only [hct, if_true, if_neg hu, hthrows]
    rw [hpm, hsplit]
    simp [hitem, String.append_assoc]
  · intro hnotok
    have hitem : (processMediaItem network ⟨some ct, some u⟩).1 = "" := by
      unfold processMediaItem
      simp only [hct, if_true, if_neg hu, hnotok]
    rw [hpm, hsplit]
    simp [hitem]
  · rw [hpm, hsplit]
    simp [hfetchcalls]
  · exact forwardEmailDispatch env jsonParse network formatDate payload data mp
      tp route em hd he hp hdir hto hroute hmode hem hemne

/-- C3 witness: with a network whose fetches all throw, a two-attachment
message produces the failure fragment for the first image, continues to
the second, and the email is still sent. -/
theorem C3_media_failure_witness :
    ((fun _ => FetchResult.throws : String → FetchResult) "http://example.com/a.png" =
        FetchResult.throws →
      (processMedia (fun _ => FetchResult.throws)
        ⟨some "inbound", some ⟨some "+15551234567"⟩,
          ToVal.str "+12345678901", some "hello",
          some [⟨some "image/png", some "http://example.com/a.png"⟩,
            ⟨some "image/png", some "http://example.com/b.png"⟩]⟩).1 =
        (processMediaList (fun _ => FetchResult.throws) []).1 ++
          mediaFragmentFail "http://example.com/a.png" ++
          (processMediaList (fun _ => FetchResult.throws)
            [⟨some "image/png", some "http://example.com/b.png"⟩]).1) ∧
    ((fun _ => FetchResult.throws : String → FetchResult) "http://example.com/a.png" =
        FetchResult.notOk →
      (processMedia (fun _ => FetchResult.throws)
        ⟨some "inbound", some ⟨some "+15551234567"⟩,
          ToVal.str "+12345678901", some "hello",
          some [⟨some "image/png", some "http://example.com/a.png"⟩,
            ⟨some "image/png", some "http://example.com/b.png"⟩]⟩).1 =
        (processMediaList (fun _ => FetchResult.throws) []).1 ++
          (processMediaList (fun _ => FetchResult.throws)
            [⟨some "image/png", some "http://example.com/b.png"⟩]).1) ∧
    (processMedia (fun _ => FetchResult.throws)
      ⟨some "inbound", some ⟨some "+15551234567"⟩,
        ToVal.str "+12345678901", some "hello",
        some [⟨some "image/png", some "http://example.com/a.png"⟩,
          ⟨some "image/png", some "http://example.com/b.png"⟩]⟩).2 =
      (processMediaList (fun _ => FetchResult.throws) []).2 ++
        OutboundCall.mediaFetch "http://example.com/a.png" ::
          (processMediaList (fun _ => FetchResult.throws)
            [⟨some "image/png", some "http://example.com/b.png"⟩]).2 ∧
    fetchHandler
        ⟨none, "noreply@example.com", "mg.example.com", "mk",
          fun k => if k = "route:+12345678901" then some "cfg" else none⟩
        (fun r => if r = "cfg" then some ⟨some "forward_email", none, some "a@b.com"⟩ else none)
        (fun _ => FetchResult.throws) (fun _ => "Jan 1, 2024, 6:00 PM CST")
        "POST"
        (some ⟨some ⟨some "message.received", some "2024-01-01T00:00:00Z",
          some ⟨some "inbound", some ⟨some "+15551234567"⟩,
            ToVal.str "+12345678901", some "hello",
            some [⟨some "image/png", some "http://example.com/a.png"⟩,
              ⟨some "image/png", some "http://example.com/b.png"⟩]⟩⟩⟩) =
      (okResponse,
        (processMedia (fun _ => FetchResult.throws)
          ⟨some "inbound", some ⟨some "+15551234567"⟩,
            ToVal.str "+12345678901", some "hello",
            some [⟨some "image/png", some "http://example.com/a.png"⟩,
              ⟨some "image/png", some "http://example.com/b.png"⟩]⟩).2 ++
          [OutboundCall.mailgun
            ⟨"SMS Alerts <" ++ "noreply@example.com" ++ ">", "a@b.com",
             "New SMS from " ++ getFromPhone
               ⟨some "inbound", some ⟨some "+15551234567"⟩,
                 ToVal.str "+12345678901", some "hello",
                 some [⟨some "image/png", some "http://example.com/a.png"⟩,
                   ⟨some "image/png", some "http://example.com/b.png"⟩]⟩,
             buildEmailHtml
               (getFromPhone ⟨some "inbound", some ⟨some "+15551234567"⟩,
                 ToVal.str "+12345678901", some "hello",
                 some [⟨some "image/png", some "http://example.com/a.png"⟩,
                   ⟨some "image/png", some "http://example.com/b.png"⟩]⟩)
               "Jan 1, 2024, 6:00 PM CST"
               (messageText ⟨some "inbound", some ⟨some "+15551234567"⟩,
                 ToVal.str "+12345678901", some "hello",
                 some [⟨some "image/png", some "http://example.com/a.png"⟩,
                   ⟨some "image/png", some "http://example.com/b.png"⟩]⟩)
               (processMedia (fun _ => FetchResult.throws)
                 ⟨some "inbound", some ⟨some "+15551234567"⟩,
                   ToVal.str "+12345678901", some "hello",
                   some [⟨some "image/png", some "http://example.com/a.png"⟩,
                     ⟨some "image/png", some "http://example.com/b.png"⟩]⟩).1,
             buildEmailText
               (getFromPhone ⟨some "inbound", some ⟨some "+15551234567"⟩,
                 ToVal.str "+12345678901", some "hello",
                 some [⟨some "image/png", some "http://example.com/a.png"⟩,
                   ⟨some "image/png", some "http://example.com/b.png"⟩]⟩)
               "Jan 1, 2024, 6:00 PM CST"
               (messageText ⟨some "inbound", some ⟨some "+15551234567"⟩,
                 ToVal.str "+12345678901", some "hello",
                 some [⟨some "image/png", some "http://example.com/a.png"⟩,
                   ⟨some "image/png", some "http://example.com/b.png"⟩]⟩)⟩]) :=
  C3_media_failure
    ⟨none, "noreply@example.com", "mg.example.com", "mk",
      fun k => if k = "route:+12345678901" then some "cfg" else none⟩
    (fun r => if r = "cfg" then some ⟨some "forward_email", none, some "a@b.com"⟩ else none)
    (fun _ => FetchResult.throws) (fun _ => "Jan 1, 2024, 6:00 PM CST")
    _ ⟨some "message.received", some "2024-01-01T00:00:00Z",
      some ⟨some "inbound", some ⟨some "+15551234567"⟩,
        ToVal.str "+12345678901", some "hello",
        some [⟨some "image/png", some "http://example.com/a.png"⟩,
          ⟨some "image/png", some "http://example.com/b.png"⟩]⟩⟩
    ⟨some "inbound", some ⟨some "+15551234567"⟩,
      ToVal.str "+12345678901", some "hello",
      some [⟨some "image/png", some "http://example.com/a.png"⟩,
        ⟨some "image/png", some "http://example.com/b.png"⟩]⟩
    "+12345678901" ⟨some "forward_email", none, some "a@b.com"⟩
    "a@b.com" "image/png" "http://example.com/a.png"
    [] [⟨some "image/png", some "http://example.com/b.png"⟩]
    (by decide) (by decide) rfl rfl rfl rfl (by decide) (by decide) rfl rfl
    (by decide) rfl

/-- C8: sender extraction for display never fails — whenever
`from.phone_number` is absent or malformed (non-string or empty), the
display sender is the literal `"(Unknown)"`, and this is the sender shown
in the forwarded email. -/
theorem C8_unknown_display_sender (env : Env) (jsonParse : String → Option Route)
    (network : String → FetchResult) (formatDate : Option String → String)
    (payload : Payload) (data : EventData) (mp : MessagePayload)
    (tp : String) (route : Route) (em : String)
    (h : mp.from_ = none ∨
      ∃ f, mp.from_ = some f ∧ (f.phone_number = none ∨ f.phone_number = some "")) :
    getFromPhone mp = "(Unknown)" ∧
    ((payload.data = some data ∧ data.event_type = some "message.received" ∧
        data.payload = some mp ∧ mp.direction = some "inbound" ∧
        getToPhone mp = some tp ∧ getRoute env jsonParse tp = some route ∧
        route.mode = some "forward_email" ∧ route.email = some em ∧ em ≠ "") →
      fetchHandler env jsonParse network formatDate "POST" (some payload) =
        (okResponse,
          (processMedia network mp).2 ++
            [OutboundCall.mailgun
              ⟨"SMS Alerts <" ++ env.FROM_EMAIL ++ ">", em,
               "New SMS from " ++ "(Unknown)",
               buildEmailHtml "(Unknown)" (formatDate data.occurred_at)
                 (messageText mp) (processMedia network mp).1,
               buildEmailText "(Unknown)" (formatDate data.occurred_at)
                 (messageText mp)⟩])) := by
  have hfrom : getFromPhone mp = "(Unknown)" := by
    rcases h with h | ⟨f, hf, hpn | hpn⟩
    · simp [getFromPhone, h]
    · simp [getFromPhone, hf, hpn]
    · simp [getFromPhone, hf, hpn]
  refine ⟨hfrom, ?_⟩
  rintro ⟨hd, he, hp, hdir, hto, hroute, hmode, hem, hemne⟩
  rw [← hfrom]
  exact forwardEmailDispatch env jsonParse network formatDate payload data mp
    tp route em hd he hp hdir hto hroute hmode hem hemne

/-- C8 witness: a payload without a `from` object forwards the email with
display sender `"(Unknown)"`. -/
theorem C8_unknown_display_sender_witness :
    getFromPhone ⟨some "inbound", none, ToVal.str "+12345678901", some "hello", none⟩ =
      "(Unknown)" ∧
    fetchHandler
        ⟨none, "noreply@example.com", "mg.example.com", "mk",
          fun k => if k = "route:+12345678901" then some "cfg" else none⟩
        (fun r => if r = "cfg" then some ⟨some "forward_email", none, some "a@b.com"⟩ else none)
        (fun _ => FetchResult.notOk) (fun _ => "Jan 1, 2024, 6:00 PM CST")
        "POST"
        (some ⟨some ⟨some "message.received", some "2024-01-01T00:00:00Z",
          some ⟨some "inbound", none, ToVal.str "+12345678901", some "hello", none⟩⟩⟩) =
      (okResponse,
        (processMedia (fun _ => FetchResult.notOk)
          ⟨some "inbound", none, ToVal.str "+12345678901", some "hello", none⟩).2 ++
          [OutboundCall.mailgun
            ⟨"SMS Alerts <" ++ "noreply@example.com" ++ ">", "a@b.com",
             "New SMS from " ++ "(Unknown)",
             buildEmailHtml "(Unknown)" "Jan 1, 2024, 6:00 PM CST"
               (messageText ⟨some "inbound", none, ToVal.str "+12345678901",
                 some "hello", none⟩)
               (processMedia (fun _ => FetchResult.notOk)
                 ⟨some "inbound", none, ToVal.str "+12345678901",
                   some "hello", none⟩).1,
             buildEmailText "(Unknown)" "Jan 1, 2024, 6:00 PM CST"
               (messageText ⟨some "inbound", none, ToVal.str "+12345678901",
                 some "hello", none⟩)⟩]) :=
  have h :=
    C8_unknown_display_sender
      ⟨none, "noreply@example.com", "mg.example.com", "mk",
        fun k => if k = "route:+12345678901" then some "cfg" else none⟩
      (fun r => if r = "cfg" then some ⟨some "forward_email", none, some "a@b.com"⟩ else none)
      (fun _ => FetchResult.notOk) (fun _ => "Jan 1, 2024, 6:00 PM CST")
      ⟨some ⟨some "message.received", some "2024-01-01T00:00:00Z",
        some ⟨some "inbound", none, ToVal.str "+12345678901", some "hello", none⟩⟩⟩
      ⟨some "message.received", some "2024-01-01T00:00:00Z",
        some ⟨some "inbound", none, ToVal.str "+12345678901", some "hello", none⟩⟩
      ⟨some "inbound", none, ToVal.str "+12345678901", some "hello", none⟩
      "+12345678901" ⟨some "forward_email", none, some "a@b.com"⟩ "a@b.com"
      (Or.inl rfl)
  ⟨h.1, h.2 ⟨rfl, rfl, rfl, rfl, by decide, by decide, rfl, rfl, by decide⟩⟩

/-- C10: when the payload's `text` field is the empty string, the message
text used in the email body and the plain-text fallback is the literal
`"(No text)"`, and the handler behaves exactly as when the `text` field is
absent. -/
theorem C10_empty_text (env : Env) (jsonParse : String → Option Route)
    (network : String → FetchResult) (formatDate : Option String → String)
    (data : EventData) (mp : MessagePayload)
    (ht : mp.text = some "") :
    messageText mp = "(No text)" ∧
    messageText { mp with text := none } = "(No text)" ∧
    fetchHandler env jsonParse network formatDate "POST"
        (some ⟨some { data with payload := some mp }⟩) =
      fetchHandler env jsonParse network formatDate "POST"
        (some ⟨some { data with payload := some { mp with text := none } }⟩) := by
  rcases mp with ⟨dir, fr, tov, tx, md⟩
  cases ht
  refine ⟨by simp [messageText], by simp [messageText], ?_⟩
  rfl

/-- C10 witness: a concrete event with `text: ""` is handled identically
to the same event with `text` absent, with message text `"(No text)"`. -/
theorem C10_empty_text_witness :
    messageText ⟨some "inbound", some ⟨some "+15551234567"⟩,
      ToVal.str "+12345678901", some "", none⟩ = "(No text)" ∧
    messageText ⟨some "inbound", some ⟨some "+15551234567"⟩,
      ToVal.str "+12345678901", none, none⟩ = "(No text)" ∧
    fetchHandler ⟨none, "", "", "", fun _ => none⟩ (fun _ => none)
        (fun _ => FetchResult.notOk) (fun _ => "")
        "POST"
        (some ⟨some ⟨some "message.received", some "2024-01-01T00:00:00Z",
          some ⟨some "inbound", some ⟨some "+15551234567"⟩,
            ToVal.str "+12345678901", some "", none⟩⟩⟩) =
      fetchHandler ⟨none, "", "", "", fun _ => none⟩ (fun _ => none)
        (fun _ => FetchResult.notOk) (fun _ => "")
        "POST"
        (some ⟨some ⟨some "message.received", some "2024-01-01T00:00:00Z",
          some ⟨some "inbound", some ⟨some "+15551234567"⟩,
            ToVal.str "+12345678901", none, none⟩⟩⟩) :=
  C10_empty_text ⟨none, "", "", "", fun _ => none⟩ (fun _ => none)
    (fun _ => FetchResult.notOk) (fun _ => "")
    ⟨some "message.received", some "2024-01-01T00:00:00Z",
      some ⟨some "inbound", some ⟨some "+15551234567"⟩,
        ToVal.str "+12345678901", some "", none⟩⟩
    ⟨some "inbound", some ⟨some "+15551234567"⟩,
      ToVal.str "+12345678901", some "", none⟩
    rfl

end TelnyxWorker
